import Mathlib

/-!
Verification development for the crowd-heatmap location-recommendation core.

The definitions below are a shallow embedding of the JavaScript source:
JS numbers are modelled as exact rationals (`ℚ`), `Math.round` as
`⌊q + 1/2⌋`, JS strings as Lean `String` with explicitly structural
implementations of `toLowerCase`, `trim`, `includes`, and
`replace(/\s+/g, '_')`, and JS truthiness of optional numeric fields as
"present and nonzero".  The great-circle distance function
(`haversineMeters` in the source) is kept abstract as a parameter
`d : DistFn`, since its trigonometric body has no bearing on the matching,
scoring and ordering logic under study; every theorem about the ranker is
proved for an arbitrary distance function.  Stateful pieces (the
feasibility cache) are modelled by explicit state passing.
-/

namespace Heatmap

/-! ## JS string primitives -/

/-- Does the first list start with the second (JS `startsWith` on char lists)? -/
def segStartsWith : List Char → List Char → Bool
  | _, [] => true
  | [], _ :: _ => false
  | a :: as, b :: bs => a = b && segStartsWith as bs

/-- Does the second list occur inside the first argument list (contiguously)? -/
def segOccurs (needle : List Char) : List Char → Bool
  | [] => needle.isEmpty
  | c :: rest => segStartsWith (c :: rest) needle || segOccurs needle rest

/-- JS `s.includes(pat)`: `pat` occurs contiguously inside `s`. -/
def strIncludes (s pat : String) : Bool := segOccurs pat.data s.data

/-- JS `String.prototype.toLowerCase` (ASCII case mapping). -/
def jsLower (s : String) : String := String.mk (s.data.map Char.toLower)

/-- Drop whitespace from both ends of a char list. -/
def trimList (l : List Char) : List Char :=
  ((l.dropWhile Char.isWhitespace).reverse.dropWhile Char.isWhitespace).reverse

/-- JS `String.prototype.trim`. -/
def jsTrim (s : String) : String := String.mk (trimList s.data)

/-- Worker for `replace(/\s+/g, '_')`: the flag records whether we are inside
a whitespace run that has already emitted its underscore. -/
def collapseWsGo : Bool → List Char → List Char
  | _, [] => []
  | inRun, c :: cs =>
    if c.isWhitespace then
      (if inRun then collapseWsGo true cs else '_' :: collapseWsGo true cs)
    else c :: collapseWsGo false cs

/-- JS `s.replace(/\s+/g, '_')`: every maximal whitespace run becomes one `'_'`. -/
def collapseWs (s : String) : String := String.mk (collapseWsGo false s.data)

/-- JS `a || b` on strings (empty string is falsy). -/
def jsOrS (a b : String) : String := if a = "" then b else a

/-- Source `normalizeType`: `String(value || '').toLowerCase().replace(/\s+/g, '_').trim()`. -/
def normalizeType (value : String) : String := jsTrim (collapseWs (jsLower value))

/-- Source `bizKey` normalization:
`String(businessType || '').trim().toLowerCase().replace(/\s+/g, '_')`. -/
def jsBizKey (businessType : String) : String := collapseWs (jsLower (jsTrim businessType))

/-- Lowercase-and-underscore normalization without the trailing trim, as used
when inferring the intensity band from the backend category map. -/
def jsLowerUnderscore (value : String) : String := collapseWs (jsLower value)

/-- JS `s.split('_')[0] || s`: the characters before the first underscore,
falling back to the whole string when that segment is empty. -/
def firstToken (s : String) : String :=
  let t := s.data.takeWhile (fun c => c ≠ '_')
  if t = [] then s else String.mk t

/-! ## JS number primitives -/

/-- JS `Math.round`: round half up, `⌊q + 1/2⌋`. -/
def jsRound (q : ℚ) : ℤ := ⌊q + 1/2⌋

/-! ## Data model -/

/-- The OSM-style tag record carried by a point of interest.  Absent JS tag
fields are modelled as the empty string (the source reads `tags.amenity || ''`
and friends). -/
structure Tags where
  amenity : String := ""
  shop : String := ""
  tourism : String := ""
  leisure : String := ""
  name : String := ""
deriving DecidableEq

/-- A point of interest as consumed by the ranker: tag record plus optional
direct coordinates and an optional `center` alias.  JS truthiness of a
coordinate (`!pLat`) is "absent or zero". -/
structure Place where
  tags : Tags := {}
  lat : Option ℚ := none
  lon : Option ℚ := none
  center : Option (ℚ × ℚ) := none
deriving DecidableEq

/-- A crowd zone handed over by the external analysis service. -/
structure Zone where
  latitude : ℚ
  longitude : ℚ
  count : ℚ := 0
deriving DecidableEq

/-! ## Crowd classifier and profile estimator (source lines 766-833) -/

/-- Threshold record mirroring the source `CROWD_THRESHOLDS` object. -/
structure CrowdThresholds where
  lowMax : ℚ
  mediumMax : ℚ

/-- Source: `{ lowMax: 80, mediumMax: 160 }`. -/
def CROWD_THRESHOLDS : CrowdThresholds := { lowMax := 80, mediumMax := 160 }

/-- Source `classifyCrowd(peopleCount)`. -/
def classifyCrowd (peopleCount : ℚ) : String :=
  if peopleCount < CROWD_THRESHOLDS.lowMax then "low"
  else if peopleCount < CROWD_THRESHOLDS.mediumMax then "medium"
  else "high"

/-- Source `estimateBaseFootfall(place)`: keyed on the individual tag fields,
first matching rule wins. -/
def estimateBaseFootfall (place : Place) : ℚ :=
  if place.tags.amenity = "restaurant" ∨ place.tags.amenity = "cafe" ∨
      place.tags.amenity = "fast_food" then 110
  else if place.tags.shop = "mall" ∨ place.tags.tourism = "attraction" then 140
  else if place.tags.amenity = "school" ∨ place.tags.amenity = "college" ∨
      place.tags.amenity = "university" then 120
  else if place.tags.amenity = "park" ∨ place.tags.leisure = "park" then 70
  else 90

/-- Source `placeTypeFor(place)`: the derived category token,
`normalizeType(tags.amenity || tags.shop || tags.tourism || tags.leisure || '')`. -/
def placeTypeFor (place : Place) : String :=
  normalizeType (jsOrS place.tags.amenity (jsOrS place.tags.shop
    (jsOrS place.tags.tourism place.tags.leisure)))

/-- Source `pickBusinessForIntensity(level)` against the module-global
`businessByIntensity` map, passed here explicitly. -/
def pickBusinessForIntensity (businessByIntensity : String → List String)
    (level : String) : String :=
  let options := businessByIntensity (jsLower level)
  options.headD ""

/-- Static description of one time-of-day slot (id, label, time range,
multiplier), as in the `slots` array of the source. -/
structure TimeSlotSpec where
  id : String
  label : String
  timeRange : String
  multiplier : ℚ

/-- The four fixed slots of `buildCrowdProfileForPlace`. -/
def slotsSpec : List TimeSlotSpec :=
  [ { id := "morning", label := "Morning", timeRange := "6am - 10am", multiplier := 0.55 },
    { id := "midday", label := "Mid-day", timeRange := "10am - 4pm", multiplier := 0.85 },
    { id := "evening", label := "Evening", timeRange := "4pm - 8pm", multiplier := 1.1 },
    { id := "night", label := "Night", timeRange := "8pm - 11pm", multiplier := 0.65 } ]

/-- One enriched slot of a crowd profile. -/
structure EnrichedSlot where
  id : String
  label : String
  timeRange : String
  people : ℤ
  crowd : String
  business : String
deriving DecidableEq

/-- Placeholder slot used only to give `List.headD` a default; the slot list
built by the profile constructor always has four elements. -/
def emptySlot : EnrichedSlot := { id := "", label := "", timeRange := "", people := 0, crowd := "", business := "" }

/-- Source: `enrichedSlots.find(s => s.crowd === 'low') || enrichedSlots[0]`. -/
def bestSlot (slots : List EnrichedSlot) : EnrichedSlot :=
  (slots.find? (fun s => s.crowd = "low")).getD (slots.headD emptySlot)

/-- The profile returned by `buildCrowdProfileForPlace`. -/
structure CrowdProfile where
  bestTimeLabel : String
  slots : List EnrichedSlot
deriving DecidableEq

/-- The enrichment of one slot in `buildCrowdProfileForPlace`:
`people = Math.round(base * multiplier)`, `crowd = classifyCrowd(people)`. -/
def profileSlot (businessByIntensity : String → List String) (place : Place)
    (slot : TimeSlotSpec) : EnrichedSlot :=
  let people := jsRound (estimateBaseFootfall place * slot.multiplier)
  let crowd := classifyCrowd (people : ℚ)
  { id := slot.id, label := slot.label, timeRange := slot.timeRange,
    people := people, crowd := crowd,
    business := pickBusinessForIntensity businessByIntensity crowd }

/-- Source `buildCrowdProfileForPlace(place)`; the module-global
`businessByIntensity` map is passed explicitly. -/
def buildCrowdProfileForPlace (businessByIntensity : String → List String)
    (place : Place) : CrowdProfile :=
  let enrichedSlots := slotsSpec.map (profileSlot businessByIntensity place)
  let best := bestSlot enrichedSlots
  { bestTimeLabel := best.label ++ " (" ++ best.timeRange ++ ") - best time (crowd below medium)",
    slots := enrichedSlots }

/-! ## Stable sorting

JS `Array.prototype.sort` with a numeric-key comparator is a stable sort:
its output is the unique permutation that is ordered by key with ties kept
in input order.  We model it directly by pairing each element with its input
index and insertion-sorting by the (key, index) lexicographic order, which
is a total order on index-distinct pairs, hence pins down exactly the JS
result. -/

/-- Lexicographic "key then input index" order on indexed elements. -/
def PairLe {α : Type} (key : α → ℚ) (a b : ℕ × α) : Prop :=
  key a.2 < key b.2 ∨ (key a.2 = key b.2 ∧ a.1 ≤ b.1)

instance {α : Type} (key : α → ℚ) : DecidableRel (PairLe key) := fun a b =>
  inferInstanceAs (Decidable (key a.2 < key b.2 ∨ (key a.2 = key b.2 ∧ a.1 ≤ b.1)))

/-- Insert an element into a list, before the first entry it is `r`-below. -/
def insertOrd {α : Type} (r : α → α → Prop) [DecidableRel r] (x : α) : List α → List α
  | [] => [x]
  | y :: ys => if r x y then x :: y :: ys else y :: insertOrd r x ys

/-- Insertion sort by a decidable relation. -/
def sortOrd {α : Type} (r : α → α → Prop) [DecidableRel r] : List α → List α
  | [] => []
  | x :: xs => insertOrd r x (sortOrd r xs)

/-- Indexed stable sort: sort (index, element) pairs by key-then-index. -/
def sortPairsBy {α : Type} (key : α → ℚ) (l : List α) : List (ℕ × α) :=
  sortOrd (PairLe key) l.enum

/-- Stable sort of a list by a rational key, ascending. -/
def sortStableBy {α : Type} (key : α → ℚ) (l : List α) : List α :=
  (sortPairsBy key l).map Prod.snd

/-! ## MatchRanker (source `placeOrangeMarkers`, lines 3525-3749)

The great-circle distance is abstracted as a parameter `d`; the source
instantiates it with `haversineMeters`. -/

/-- A distance function `d lat1 lon1 lat2 lon2`, abstracting `haversineMeters`. -/
abbrev DistFn := ℚ → ℚ → ℚ → ℚ → ℚ

/-- An anchor coordinate; `none` models a NaN (unparseable) anchor. -/
abbrev Coord := ℚ × ℚ

/-- JS truthiness of an optional numeric field: present and nonzero. -/
def qTruthy : Option ℚ → Bool
  | none => false
  | some v => decide (v ≠ 0)

/-- Source `typeMatches(place)`: the business key matches the derived
category token by equality or substring in either direction, or the first
segment of the business key occurs in the normalized name. -/
def typeMatches (bizKey : String) (place : Place) : Bool :=
  if bizKey = "" then false
  else
    let pType := placeTypeFor place
    let pName := normalizeType place.tags.name
    if pType = "" && pName = "" then false
    else
      let bizToken := firstToken bizKey
      pType = bizKey || strIncludes pType bizKey || strIncludes bizKey pType ||
        strIncludes pName bizToken

/-- Source `mlMatches(place)` against the normalized allowed-category set
(empty set imposes no restriction). -/
def mlMatches (mlCategorySet : List String) (place : Place) : Bool :=
  if mlCategorySet.isEmpty then true
  else
    let pType := placeTypeFor place
    let pName := normalizeType place.tags.name
    if pType = "" && pName = "" then false
    else
      mlCategorySet.any (fun mlType =>
        let token := firstToken mlType
        pType = mlType || strIncludes pType mlType || strIncludes mlType pType ||
          strIncludes pName token)

/-- Source `coordsFor(place)`: direct coordinates, with the `center` alias
consulted when the direct latitude is falsy; returns none when either final
coordinate is falsy. -/
def coordsFor (place : Place) : Option Coord :=
  let pair :=
    if ¬ (qTruthy place.lat) ∧ place.center.isSome
    then (place.center.map Prod.fst, place.center.map Prod.snd)
    else (place.lat, place.lon)
  if qTruthy pair.1 && qTruthy pair.2 then some (pair.1.getD 0, pair.2.getD 0)
  else none

/-- One entry of the `matchingPlaces` working list. -/
structure MatchedPlace where
  place : Place
  lat : ℚ
  lon : ℚ
  placeIntensity : String
  placeType : String
deriving DecidableEq

/-- The per-place body of the `matchingPlaces` loop: type match, ML match,
usable coordinates, and (when an intensity is requested) band equality. -/
def matchEntry (bizKey intensityNorm : String) (mlCategorySet : List String)
    (place : Place) : Option MatchedPlace :=
  if typeMatches bizKey place = true then
    if mlMatches mlCategorySet place = true then
      match coordsFor place with
      | none => none
      | some pt =>
        if intensityNorm ≠ "" ∧ classifyCrowd (estimateBaseFootfall place) ≠ intensityNorm
        then none
        else some { place := place, lat := pt.1, lon := pt.2,
                    placeIntensity := classifyCrowd (estimateBaseFootfall place),
                    placeType := placeTypeFor place }
    else none
  else none

/-- Source construction of `matchingPlaces`. -/
def matchingPlaces (bizKey intensityNorm : String) (mlCategorySet : List String)
    (allPlaces : List Place) : List MatchedPlace :=
  allPlaces.filterMap (matchEntry bizKey intensityNorm mlCategorySet)

/-- Distance from the anchor used by the tier-1 comparator; `0` when the
anchor is invalid, as in the source. -/
def anchorDist (d : DistFn) (anchor : Option Coord) (lat lon : ℚ) : ℚ :=
  match anchor with
  | some a => d a.1 a.2 lat lon
  | none => 0

/-- Tier-1 sort key of a matched place. -/
def tier1Key (d : DistFn) (anchor : Option Coord) (mp : MatchedPlace) : ℚ :=
  anchorDist d anchor mp.lat mp.lon

/-- A ranked output candidate (an orange marker of the source). -/
structure Candidate where
  lat : ℚ
  lon : ℚ
  kind : String
  label : String
deriving DecidableEq

/-- Candidate emitted for a matched place (tiers 1 and 3). -/
def mpCandidate (mp : MatchedPlace) : Candidate :=
  { lat := mp.lat, lon := mp.lon, kind := "poi",
    label := jsOrS mp.place.tags.name (jsOrS mp.placeType "Business") }

/-- Tier 1: qualifying places sorted by distance to the anchor (stable,
ascending), nearest 10. -/
def tier1 (d : DistFn) (anchor : Option Coord) (bizKey intensityNorm : String)
    (mlCategorySet : List String) (allPlaces : List Place) : List Candidate :=
  ((sortStableBy (tier1Key d anchor)
      (matchingPlaces bizKey intensityNorm mlCategorySet allPlaces)).take 10).map mpCandidate

/-- One scored zone record. -/
structure ZoneCandidate where
  zone : Zone
  zLat : ℚ
  zLon : ℚ
  nearbyMatchCount : ℕ
  baseCount : ℚ
  score : ℚ
deriving DecidableEq

/-- Source zone scoring: `score = nearbyMatchCount * 1000 + baseCount -
centerDistance * 0.001`, where `nearbyMatchCount` counts matching places
within 900 m of the zone. -/
def zoneCandidates (d : DistFn) (anchor : Option Coord)
    (matching : List MatchedPlace) (zones : List Zone) : List ZoneCandidate :=
  zones.map (fun zone =>
    let zLat := zone.latitude
    let zLon := zone.longitude
    let nearbyMatchCount := (matching.filter (fun mp => d zLat zLon mp.lat mp.lon ≤ 900)).length
    let baseCount := zone.count
    let centerDistance := anchorDist d anchor zLat zLon
    { zone := zone, zLat := zLat, zLon := zLon,
      nearbyMatchCount := nearbyMatchCount, baseCount := baseCount,
      score := (nearbyMatchCount : ℚ) * 1000 + baseCount - centerDistance * 0.001 })

/-- Descending sort key for zone candidates (the JS comparator
`(a, b) => b.score - a.score` is ascending in `-score`). -/
def zoneSortKey (zc : ZoneCandidate) : ℚ := -zc.score

/-- Candidate emitted for a ranked zone (tier 2). -/
def zcCandidate (zc : ZoneCandidate) : Candidate :=
  { lat := zc.zLat, lon := zc.zLon, kind := "zone", label := "Best Match Zone" }

/-- Tier 2: the top 5 zones of the requested band by score, descending. -/
def tier2 (d : DistFn) (anchor : Option Coord) (matching : List MatchedPlace)
    (zones : List Zone) : List Candidate :=
  ((sortStableBy zoneSortKey (zoneCandidates d anchor matching zones)).take 5).map zcCandidate

/-- Tier 3 (source lines 3720-3740): the first five entries of the raw
match list. -/
def tier3 (matching : List MatchedPlace) : List Candidate :=
  (matching.take 5).map mpCandidate

/-- Popup label of the last-resort anchor marker. -/
def noRankedLabel : String := "No ranked zones found for this combination here yet."

/-- The last-resort candidate at the anchor. -/
def fallbackCandidate (c : Coord) : Candidate :=
  { lat := c.1, lon := c.2, kind := "fallback", label := noRankedLabel }

/-- Source intensity normalization: `'moderate'` maps to `'medium'`, then
lowercase; when empty, infer the first band whose recommended business list
contains the business key. -/
def intensityNormOf (crowdIntensity : String) (businessByIntensity : String → List String)
    (bizKey : String) : String :=
  let i0 := jsLower (if crowdIntensity = "moderate" then "medium" else crowdIntensity)
  if i0 = "" then
    ((["low", "medium", "high"].find? (fun level =>
        (businessByIntensity level).any (fun x => jsLowerUnderscore x = bizKey))).getD "")
  else i0

/-- Keep the first occurrence of each string, dropping later duplicates
(JS `Set` insertion semantics). -/
def dedupFirstGo (seen : List String) : List String → List String
  | [] => []
  | x :: xs => if seen.contains x then dedupFirstGo seen xs
               else x :: dedupFirstGo (x :: seen) xs

/-- Source `mlCategorySet`: the selected band's recommended categories,
normalized, with empty entries dropped. -/
def mlCategorySetOf (businessByIntensity : String → List String)
    (intensityNorm : String) : List String :=
  dedupFirstGo [] (((businessByIntensity intensityNorm).map normalizeType).filter (fun s => s ≠ ""))

/-- The algorithmic core of `placeOrangeMarkers`: the four-tier fallback
ranking.  `anchor = none` models an unparseable center coordinate;
`businessByIntensity` and `zoneData` are the module globals
`businessByIntensity` and `lastCrowdIntensityData`. -/
def rank (d : DistFn) (businessType crowdIntensity : String) (places : List Place)
    (anchor : Option Coord) (businessByIntensity : String → List String)
    (zoneData : String → List Zone) : List Candidate :=
  let bizKey := jsBizKey businessType
  let intensityNorm := intensityNormOf crowdIntensity businessByIntensity bizKey
  let mlCategorySet := mlCategorySetOf businessByIntensity intensityNorm
  let matching := matchingPlaces bizKey intensityNorm mlCategorySet places
  let t1 := tier1 d anchor bizKey intensityNorm mlCategorySet places
  if t1 ≠ [] then t1
  else
    let t2 := tier2 d anchor matching (zoneData intensityNorm)
    if t2 ≠ [] then t2
    else
      let t3 := if matching ≠ [] then tier3 matching else []
      if t3 ≠ [] then t3
      else
        match anchor with
        | some c => [fallbackCandidate c]
        | none => []

/-! ## FeasibilityCache (source `getFeasibilityWithCache`, lines 27-52)

The async fetch is modelled by passing the outcome the external call would
produce (`Except.error` for a transport/parse throw, `Except.ok` for a
parsed JSON body).  Each call is given the current clock value; the fetch
is treated as instantaneous, so the stored timestamp equals the call time.
The returned `Bool` records whether the fetcher was invoked. -/

/-- The parsed feasibility response body. -/
structure FeasData where
  success : Bool := true
  feasible : Bool := true
  message : String := ""
deriving DecidableEq

instance : DecidableEq (Except String FeasData) := fun x y =>
  match x, y with
  | .error a, .error b => if h : a = b then isTrue (by rw [h]) else isFalse (by simp [h])
  | .ok a, .ok b => if h : a = b then isTrue (by rw [h]) else isFalse (by simp [h])
  | .error _, .ok _ => isFalse (by simp)
  | .ok _, .error _ => isFalse (by simp)

/-- A normalized cache key: lat and lon rounded at 4 decimals, plus the
lowercased, trimmed business type. -/
abbrev CacheKey := ℤ × ℤ × String

/-- JS `x.toFixed(4)` as a number: rounding half up at the fourth decimal
(the formatting-only sign of `"-0.0000"` is not modelled). -/
def round4 (q : ℚ) : ℤ := jsRound (q * 10000)

/-- Source cache key:
`lat.toFixed(4) | lon.toFixed(4) | String(businessType || '').toLowerCase().trim()`. -/
def cacheKeyOf (lat lon : ℚ) (businessType : String) : CacheKey :=
  (round4 lat, round4 lon, jsTrim (jsLower businessType))

/-- One stored cache record `{ data, ts }`. -/
structure CacheEntry where
  data : FeasData
  ts : ℤ
deriving DecidableEq

/-- The cache map, as an association list in insertion order. -/
abbrev CacheState := List (CacheKey × CacheEntry)

/-- JS `Map.get`. -/
def cacheGet : CacheState → CacheKey → Option CacheEntry
  | [], _ => none
  | (k', v) :: rest, k => if k' = k then some v else cacheGet rest k

/-- JS `Map.set`: replace the entry at the key if present, else append. -/
def cacheSet : CacheState → CacheKey → CacheEntry → CacheState
  | [], k, v => [(k, v)]
  | (k', v') :: rest, k, v =>
    if k' = k then (k, v) :: rest else (k', v') :: cacheSet rest k v

/-- Number of live entries stored under a key. -/
def countKey (st : CacheState) (k : CacheKey) : ℕ :=
  (st.filter (fun e => e.1 = k)).length

/-- Source `getFeasibilityWithCache(lat, lon, businessType, ttlMs = 120000)`.
Returns the result (or propagated error), the new cache state, and whether
the fetcher was invoked. -/
def getFeasibilityWithCache (st : CacheState) (now : ℤ) (lat lon : ℚ)
    (businessType : String) (fetchResult : Except String FeasData)
    (ttlMs : ℤ := 120000) : Except String FeasData × CacheState × Bool :=
  let cacheKey := cacheKeyOf lat lon businessType
  match cacheGet st cacheKey with
  | some cacheHit =>
    if now - cacheHit.ts < ttlMs then (Except.ok cacheHit.data, st, false)
    else
      match fetchResult with
      | Except.error e => (Except.error e, st, true)
      | Except.ok feasData =>
        (Except.ok feasData, cacheSet st cacheKey { data := feasData, ts := now }, true)
  | none =>
    match fetchResult with
    | Except.error e => (Except.error e, st, true)
    | Except.ok feasData =>
      (Except.ok feasData, cacheSet st cacheKey { data := feasData, ts := now }, true)

/-! ## Helper lemmas: insertion sort -/

theorem insertOrd_perm {α : Type} (r : α → α → Prop) [DecidableRel r] (x : α) :
    ∀ l : List α, (insertOrd r x l).Perm (x :: l)
  | [] => List.Perm.refl _
  | y :: ys => by
    by_cases h : r x y
    · simp [insertOrd, h]
    · simp only [insertOrd, if_neg h]
      exact ((insertOrd_perm r x ys).cons y).trans (List.Perm.swap x y ys)

theorem sortOrd_perm {α : Type} (r : α → α → Prop) [DecidableRel r] :
    ∀ l : List α, (sortOrd r l).Perm l
  | [] => List.Perm.refl _
  | x :: xs =>
    (insertOrd_perm r x (sortOrd r xs)).trans ((sortOrd_perm r xs).cons x)

theorem insertOrd_pairwise {α : Type} (r : α → α → Prop) [DecidableRel r]
    (htot : ∀ a b, r a b ∨ r b a) (htr : ∀ a b c, r a b → r b c → r a c) (x : α) :
    ∀ l : List α, l.Pairwise r → (insertOrd r x l).Pairwise r
  | [], _ => by simp [insertOrd]
  | y :: ys, hl => by
    rcases List.pairwise_cons.mp hl with ⟨hy, hys⟩
    by_cases h : r x y
    · simp only [insertOrd, if_pos h]
      refine List.pairwise_cons.mpr ⟨?_, hl⟩
      intro z hz
      rcases List.mem_cons.mp hz with rfl | hz'
      · exact h
      · exact htr x y z h (hy z hz')
    · simp only [insertOrd, if_neg h]
      refine List.pairwise_cons.mpr ⟨?_, insertOrd_pairwise r htot htr x ys hys⟩
      intro z hz
      rcases List.mem_cons.mp ((insertOrd_perm r x ys).mem_iff.mp hz) with h1 | hz'
      · subst h1
        exact (htot z y).resolve_left h
      · exact hy z hz'

theorem sortOrd_pairwise {α : Type} (r : α → α → Prop) [DecidableRel r]
    (htot : ∀ a b, r a b ∨ r b a) (htr : ∀ a b c, r a b → r b c → r a c) :
    ∀ l : List α, (sortOrd r l).Pairwise r
  | [] => List.Pairwise.nil
  | x :: xs =>
    insertOrd_pairwise r htot htr x (sortOrd r xs) (sortOrd_pairwise r htot htr xs)

theorem pairLe_total {α : Type} (key : α → ℚ) (a b : ℕ × α) :
    PairLe key a b ∨ PairLe key b a := by
  rcases lt_trichotomy (key a.2) (key b.2) with h | h | h
  · exact Or.inl (Or.inl h)
  · rcases Nat.le_total a.1 b.1 with hi | hi
    · exact Or.inl (Or.inr ⟨h, hi⟩)
    · exact Or.inr (Or.inr ⟨h.symm, hi⟩)
  · exact Or.inr (Or.inl h)

theorem pairLe_trans {α : Type} (key : α → ℚ) (a b c : ℕ × α) :
    PairLe key a b → PairLe key b c → PairLe key a c := by
  rintro (h1 | ⟨h1, hi1⟩) (h2 | ⟨h2, hi2⟩)
  · exact Or.inl (h1.trans h2)
  · exact Or.inl (h2 ▸ h1)
  · exact Or.inl (h1 ▸ h2)
  · exact Or.inr ⟨h1.trans h2, hi1.trans hi2⟩

theorem sortPairsBy_perm {α : Type} (key : α → ℚ) (l : List α) :
    (sortPairsBy key l).Perm l.enum :=
  sortOrd_perm (PairLe key) l.enum

theorem sortPairsBy_pairwise {α : Type} (key : α → ℚ) (l : List α) :
    (sortPairsBy key l).Pairwise (PairLe key) :=
  sortOrd_pairwise (PairLe key) (pairLe_total key) (pairLe_trans key) l.enum

theorem sortStableBy_perm {α : Type} (key : α → ℚ) (l : List α) :
    (sortStableBy key l).Perm l := by
  have h := (sortPairsBy_perm key l).map Prod.snd
  rwa [List.enum_map_snd] at h

theorem sortStableBy_length {α : Type} (key : α → ℚ) (l : List α) :
    (sortStableBy key l).length = l.length :=
  (sortStableBy_perm key l).length_eq

theorem sortStableBy_pairwise {α : Type} (key : α → ℚ) (l : List α) :
    (sortStableBy key l).Pairwise (fun a b => key a ≤ key b) := by
  refine List.pairwise_map.mpr ?_
  refine (sortPairsBy_pairwise key l).imp ?_
  rintro a b (h | ⟨h, _⟩)
  · exact le_of_lt h
  · exact le_of_eq h

theorem sortStableBy_mem {α : Type} (key : α → ℚ) (l : List α) {a : α} :
    a ∈ sortStableBy key l ↔ a ∈ l :=
  (sortStableBy_perm key l).mem_iff

theorem pairwise_take_drop {α : Type} {R : α → α → Prop} {l : List α}
    (h : l.Pairwise R) (n : ℕ) :
    ∀ a ∈ l.take n, ∀ b ∈ l.drop n, R a b := by
  have h2 : (l.take n ++ l.drop n).Pairwise R := by rw [List.take_append_drop]; exact h
  exact (List.pairwise_append.mp h2).2.2

theorem sortStableBy_eq_nil_iff {α : Type} (key : α → ℚ) (l : List α) :
    sortStableBy key l = [] ↔ l = [] := by
  constructor
  · intro h
    have := sortStableBy_length key l
    rw [h] at this
    exact List.eq_nil_of_length_eq_zero this.symm
  · rintro rfl
    simp [sortStableBy, sortPairsBy, List.enum, sortOrd]

/-! ## Helper lemmas: ranker -/

theorem matchEntry_eq_some_iff (bizKey intensityNorm : String) (mlCategorySet : List String)
    (place : Place) (mp : MatchedPlace) :
    matchEntry bizKey intensityNorm mlCategorySet place = some mp ↔
      typeMatches bizKey place = true ∧ mlMatches mlCategorySet place = true ∧
      ∃ pt, coordsFor place = some pt ∧
        (intensityNorm = "" ∨ classifyCrowd (estimateBaseFootfall place) = intensityNorm) ∧
        mp = { place := place, lat := pt.1, lon := pt.2,
               placeIntensity := classifyCrowd (estimateBaseFootfall place),
               placeType := placeTypeFor place } := by
  constructor
  · intro h
    unfold matchEntry at h
    by_cases h1 : typeMatches bizKey place = true
    · rw [if_pos h1] at h
      by_cases h2 : mlMatches mlCategorySet place = true
      · rw [if_pos h2] at h
        rcases hc : coordsFor place with _ | pt
        · rw [hc] at h
          simp at h
        · rw [hc] at h
          dsimp only at h
          by_cases h3 : intensityNorm ≠ "" ∧ classifyCrowd (estimateBaseFootfall place) ≠ intensityNorm
          · rw [if_pos h3] at h
            simp at h
          · rw [if_neg h3] at h
            injection h with h4
            exact ⟨h1, h2, pt, rfl, by tauto, h4.symm⟩
      · rw [if_neg h2] at h
        simp at h
    · rw [if_neg h1] at h
      simp at h
  · rintro ⟨h1, h2, pt, hc, hband, rfl⟩
    unfold matchEntry
    rw [if_pos h1, if_pos h2, hc]
    dsimp only
    rw [if_neg (by tauto)]

theorem exists_mem_matchingPlaces_iff (bizKey intensityNorm : String)
    (mlCategorySet : List String) (places : List Place) (p : Place) :
    (∃ mp ∈ matchingPlaces bizKey intensityNorm mlCategorySet places, mp.place = p) ↔
      p ∈ places ∧ typeMatches bizKey p = true ∧ mlMatches mlCategorySet p = true ∧
      (coordsFor p).isSome = true ∧
      (intensityNorm = "" ∨ classifyCrowd (estimateBaseFootfall p) = intensityNorm) := by
  unfold matchingPlaces
  constructor
  · rintro ⟨mp, hmem, rfl⟩
    rcases List.mem_filterMap.mp hmem with ⟨a, ha, hfa⟩
    rcases (matchEntry_eq_some_iff _ _ _ _ _).mp hfa with ⟨h1, h2, pt, hc, hband, rfl⟩
    exact ⟨ha, h1, h2, by rw [hc]; rfl, hband⟩
  · rintro ⟨hp, h1, h2, hsome, hband⟩
    rcases Option.isSome_iff_exists.mp hsome with ⟨pt, hpt⟩
    refine ⟨{ place := p, lat := pt.1, lon := pt.2,
              placeIntensity := classifyCrowd (estimateBaseFootfall p),
              placeType := placeTypeFor p }, ?_, rfl⟩
    exact List.mem_filterMap.mpr ⟨p, hp,
      (matchEntry_eq_some_iff _ _ _ _ _).mpr ⟨h1, h2, pt, hpt, hband, rfl⟩⟩

theorem tier1_length (d : DistFn) (anchor : Option Coord) (bizKey intensityNorm : String)
    (mlCategorySet : List String) (allPlaces : List Place) :
    (tier1 d anchor bizKey intensityNorm mlCategorySet allPlaces).length =
      min 10 (matchingPlaces bizKey intensityNorm mlCategorySet allPlaces).length := by
  unfold tier1
  rw [List.length_map, List.length_take, sortStableBy_length]

theorem tier1_eq_nil_iff (d : DistFn) (anchor : Option Coord) (bizKey intensityNorm : String)
    (mlCategorySet : List String) (allPlaces : List Place) :
    tier1 d anchor bizKey intensityNorm mlCategorySet allPlaces = [] ↔
      matchingPlaces bizKey intensityNorm mlCategorySet allPlaces = [] := by
  constructor
  · intro h
    have hlen := congrArg List.length h
    rw [tier1_length] at hlen
    simp only [List.length_nil] at hlen
    have : (matchingPlaces bizKey intensityNorm mlCategorySet allPlaces).length = 0 := by omega
    exact List.eq_nil_of_length_eq_zero this
  · intro h
    unfold tier1
    rw [h, (sortStableBy_eq_nil_iff _ _).mpr rfl]
    rfl

theorem zoneCandidates_map_zone (d : DistFn) (anchor : Option Coord)
    (matching : List MatchedPlace) (zones : List Zone) :
    (zoneCandidates d anchor matching zones).map (fun zc => zc.zone) = zones := by
  unfold zoneCandidates
  rw [List.map_map]
  exact List.map_id _

theorem zoneCandidates_length (d : DistFn) (anchor : Option Coord)
    (matching : List MatchedPlace) (zones : List Zone) :
    (zoneCandidates d anchor matching zones).length = zones.length := by
  unfold zoneCandidates
  rw [List.length_map]

theorem tier2_length (d : DistFn) (anchor : Option Coord)
    (matching : List MatchedPlace) (zones : List Zone) :
    (tier2 d anchor matching zones).length = min 5 zones.length := by
  unfold tier2
  rw [List.length_map, List.length_take, sortStableBy_length, zoneCandidates_length]

theorem tier2_eq_nil_iff (d : DistFn) (anchor : Option Coord)
    (matching : List MatchedPlace) (zones : List Zone) :
    tier2 d anchor matching zones = [] ↔ zones = [] := by
  constructor
  · intro h
    have hlen := congrArg List.length h
    rw [tier2_length] at hlen
    simp only [List.length_nil] at hlen
    have : zones.length = 0 := by omega
    exact List.eq_nil_of_length_eq_zero this
  · rintro rfl
    unfold tier2 zoneCandidates
    rw [List.map_nil, (sortStableBy_eq_nil_iff _ _).mpr rfl]
    rfl

theorem estimateBaseFootfall_cases (place : Place) :
    estimateBaseFootfall place = 70 ∨ estimateBaseFootfall place = 90 ∨
    estimateBaseFootfall place = 110 ∨ estimateBaseFootfall place = 120 ∨
    estimateBaseFootfall place = 140 := by
  unfold estimateBaseFootfall
  repeat' split
  all_goals norm_num

theorem buildProfile_slots (businessByIntensity : String → List String) (place : Place) :
    (buildCrowdProfileForPlace businessByIntensity place).slots =
      [ profileSlot businessByIntensity place
          { id := "morning", label := "Morning", timeRange := "6am - 10am", multiplier := 0.55 },
        profileSlot businessByIntensity place
          { id := "midday", label := "Mid-day", timeRange := "10am - 4pm", multiplier := 0.85 },
        profileSlot businessByIntensity place
          { id := "evening", label := "Evening", timeRange := "4pm - 8pm", multiplier := 1.1 },
        profileSlot businessByIntensity place
          { id := "night", label := "Night", timeRange := "8pm - 11pm", multiplier := 0.65 } ] := by
  rfl

/-! ## Shared concrete fixtures -/

/-- An empty business-by-intensity map. -/
def bbiNone : String → List String := fun _ => []

/-- A cafe POI (canonical `amenity` tag) at integer coordinates. -/
def placeCafe : Place := { tags := { amenity := "cafe" }, lat := some 13, lon := some 78 }

/-- A POI whose derived category is `"cafe"`, but via the `shop` tag. -/
def placeShopCafe : Place := { tags := { shop := "cafe" } }

/-! ## Claims -/

/-- C7: `classifyCrowd` is a pure total function on finite non-negative
integers: every `count < 80` maps to `"low"`, every `80 ≤ count < 160` to
`"medium"`, and every `count ≥ 160` to `"high"`, with each band inclusive at
its lower bound. -/
theorem claim_C7 (count : ℕ) :
    (count < 80 → classifyCrowd (count : ℚ) = "low") ∧
    (80 ≤ count ∧ count < 160 → classifyCrowd (count : ℚ) = "medium") ∧
    (160 ≤ count → classifyCrowd (count : ℚ) = "high") := by
  refine ⟨?_, ?_, ?_⟩
  · intro h
    simp only [classifyCrowd, CROWD_THRESHOLDS]
    rw [if_pos (by exact_mod_cast h)]
  · rintro ⟨h1, h2⟩
    simp only [classifyCrowd, CROWD_THRESHOLDS]
    rw [if_neg (not_lt.mpr (by exact_mod_cast h1)), if_pos (by exact_mod_cast h2)]
  · intro h
    have h80 : (80 : ℕ) ≤ count := le_trans (by norm_num) h
    simp only [classifyCrowd, CROWD_THRESHOLDS]
    rw [if_neg (not_lt.mpr (by exact_mod_cast h80)), if_neg (not_lt.mpr (by exact_mod_cast h))]

/-- Witness for C7 at the boundary inputs 79, 80, 159, 160. -/
theorem claim_C7_witness :
    classifyCrowd ((79 : ℕ) : ℚ) = "low" ∧ classifyCrowd ((80 : ℕ) : ℚ) = "medium" ∧
    classifyCrowd ((159 : ℕ) : ℚ) = "medium" ∧ classifyCrowd ((160 : ℕ) : ℚ) = "high" :=
  ⟨(claim_C7 79).1 (by decide), (claim_C7 80).2.1 ⟨by decide, by decide⟩,
   (claim_C7 159).2.1 ⟨by decide, by decide⟩, (claim_C7 160).2.2 (by decide)⟩

/-- C8 counterexample: a POI whose derived category token is `"cafe"` (via
the `shop` tag) yields baseline 90, not the 110 the claim's category table
demands, so the baseline is not a lookup on the POI's category. -/
theorem claim_C8_counterexample :
    placeTypeFor placeShopCafe = "cafe" ∧
    estimateBaseFootfall placeShopCafe = 90 ∧
    ¬ estimateBaseFootfall placeShopCafe = 110 := by
  refine ⟨by decide, by decide, by decide⟩

/-- C8 amended: the baseline is a first-match-wins lookup on specific tag
fields — `amenity ∈ {restaurant, cafe, fast_food} → 110`; else
`shop = mall ∨ tourism = attraction → 140`; else
`amenity ∈ {school, college, university} → 120`; else
`amenity = park ∨ leisure = park → 70`; else 90 — so a cafe tagged via
`amenity` gives 110, a mall via `shop` 140, a park via `leisure` or
`amenity` 70, and an unrecognized tag set 90. -/
theorem claim_C8_amended (place : Place) :
    (place.tags.amenity = "restaurant" ∨ place.tags.amenity = "cafe" ∨
        place.tags.amenity = "fast_food" →
      estimateBaseFootfall place = 110) ∧
    (¬ (place.tags.amenity = "restaurant" ∨ place.tags.amenity = "cafe" ∨
        place.tags.amenity = "fast_food") →
      place.tags.shop = "mall" ∨ place.tags.tourism = "attraction" →
      estimateBaseFootfall place = 140) ∧
    (¬ (place.tags.amenity = "restaurant" ∨ place.tags.amenity = "cafe" ∨
        place.tags.amenity = "fast_food") →
      ¬ (place.tags.shop = "mall" ∨ place.tags.tourism = "attraction") →
      place.tags.amenity = "school" ∨ place.tags.amenity = "college" ∨
        place.tags.amenity = "university" →
      estimateBaseFootfall place = 120) ∧
    (¬ (place.tags.amenity = "restaurant" ∨ place.tags.amenity = "cafe" ∨
        place.tags.amenity = "fast_food") →
      ¬ (place.tags.shop = "mall" ∨ place.tags.tourism = "attraction") →
      ¬ (place.tags.amenity = "school" ∨ place.tags.amenity = "college" ∨
        place.tags.amenity = "university") →
      place.tags.amenity = "park" ∨ place.tags.leisure = "park" →
      estimateBaseFootfall place = 70) ∧
    (¬ (place.tags.amenity = "restaurant" ∨ place.tags.amenity = "cafe" ∨
        place.tags.amenity = "fast_food") →
      ¬ (place.tags.shop = "mall" ∨ place.tags.tourism = "attraction") →
      ¬ (place.tags.amenity = "school" ∨ place.tags.amenity = "college" ∨
        place.tags.amenity = "university") →
      ¬ (place.tags.amenity = "park" ∨ place.tags.leisure = "park") →
      estimateBaseFootfall place = 90) ∧
    estimateBaseFootfall { tags := { amenity := "cafe" } } = 110 ∧
    estimateBaseFootfall { tags := { shop := "mall" } } = 140 ∧
    estimateBaseFootfall { tags := { leisure := "park" } } = 70 ∧
    estimateBaseFootfall { tags := { amenity := "park" } } = 70 ∧
    estimateBaseFootfall { tags := {} } = 90 := by
  refine ⟨?_, ?_, ?_, ?_, ?_, ?_, ?_, ?_, ?_, ?_⟩
  · intro h1
    unfold estimateBaseFootfall
    rw [if_pos h1]
  · intro h1 h2
    unfold estimateBaseFootfall
    rw [if_neg h1, if_pos h2]
  · intro h1 h2 h3
    unfold estimateBaseFootfall
    rw [if_neg h1, if_neg h2, if_pos h3]
  · intro h1 h2 h3 h4
    unfold estimateBaseFootfall
    rw [if_neg h1, if_neg h2, if_neg h3, if_pos h4]
  · intro h1 h2 h3 h4
    unfold estimateBaseFootfall
    rw [if_neg h1, if_neg h2, if_neg h3, if_neg h4]
  all_goals decide

/-- Witness for C8 amended: the first rule at an `amenity = "cafe"` POI. -/
theorem claim_C8_witness :
    (placeCafe.tags.amenity = "restaurant" ∨ placeCafe.tags.amenity = "cafe" ∨
      placeCafe.tags.amenity = "fast_food") ∧
    estimateBaseFootfall placeCafe = 110 :=
  ⟨by decide, (claim_C8_amended placeCafe).1 (by decide)⟩

/-- C9: `buildCrowdProfileForPlace` produces exactly the four slots
morning, midday, evening, night, whose people counts are the baseline times
0.55, 0.85, 1.1, 0.65 rounded to the nearest integer; every slot's band is
the classification of its own people count; and the best-time slot is the
first slot whose band is `"low"`, or the first slot when no band is
`"low"`. -/
theorem claim_C9 (businessByIntensity : String → List String) (place : Place) :
    ((buildCrowdProfileForPlace businessByIntensity place).slots.map (fun s => s.id) =
      ["morning", "midday", "evening", "night"]) ∧
    ((buildCrowdProfileForPlace businessByIntensity place).slots.map (fun s => s.people) =
      [ jsRound (estimateBaseFootfall place * 0.55),
        jsRound (estimateBaseFootfall place * 0.85),
        jsRound (estimateBaseFootfall place * 1.1),
        jsRound (estimateBaseFootfall place * 0.65) ]) ∧
    (∀ s ∈ (buildCrowdProfileForPlace businessByIntensity place).slots,
      s.crowd = classifyCrowd (s.people : ℚ)) ∧
    (∀ s0, (buildCrowdProfileForPlace businessByIntensity place).slots.find?
        (fun s => s.crowd = "low") = some s0 →
      bestSlot (buildCrowdProfileForPlace businessByIntensity place).slots = s0) ∧
    ((buildCrowdProfileForPlace businessByIntensity place).slots.find?
        (fun s => s.crowd = "low") = none →
      bestSlot (buildCrowdProfileForPlace businessByIntensity place).slots =
        (buildCrowdProfileForPlace businessByIntensity place).slots.headD emptySlot) := by
  refine ⟨?_, ?_, ?_, ?_, ?_⟩
  · rw [buildProfile_slots]
    rfl
  · rw [buildProfile_slots]
    rfl
  · intro s hs
    rw [buildProfile_slots] at hs
    simp only [List.mem_cons, List.not_mem_nil, or_false] at hs
    rcases hs with rfl | rfl | rfl | rfl
    all_goals rfl
  · intro s0 h
    unfold bestSlot
    rw [h]
    rfl
  · intro h
    unfold bestSlot
    rw [h]
    rfl

/-- Witness for C9 at a cafe POI: its morning slot has band `"low"`, is the
first hit of the `find?`, and is selected as the best slot. -/
theorem claim_C9_witness :
    ((buildCrowdProfileForPlace bbiNone placeCafe).slots.find? (fun s => s.crowd = "low") =
      some { id := "morning", label := "Morning", timeRange := "6am - 10am",
             people := 61, crowd := "low", business := "" }) ∧
    bestSlot (buildCrowdProfileForPlace bbiNone placeCafe).slots =
      { id := "morning", label := "Morning", timeRange := "6am - 10am",
        people := 61, crowd := "low", business := "" } := by
  have hfind : (buildCrowdProfileForPlace bbiNone placeCafe).slots.find?
      (fun s => s.crowd = "low") =
      some { id := "morning", label := "Morning", timeRange := "6am - 10am",
             people := 61, crowd := "low", business := "" } := by
    rw [buildProfile_slots]
    have hbase : estimateBaseFootfall placeCafe = 110 := by decide
    have hslot : profileSlot bbiNone placeCafe
        { id := "morning", label := "Morning", timeRange := "6am - 10am", multiplier := 0.55 } =
        { id := "morning", label := "Morning", timeRange := "6am - 10am",
          people := 61, crowd := "low", business := "" } := by
      unfold profileSlot
      rw [hbase]
      have hp : jsRound ((110 : ℚ) * 0.55) = 61 := by norm_num [jsRound]
      rw [hp]
      dsimp only
      have hc : classifyCrowd ((61 : ℤ) : ℚ) = "low" := by decide
      rw [hc]
      rfl
    rw [hslot]
    exact List.find?_cons_of_pos _ (by decide)
  exact ⟨hfind, (claim_C9 bbiNone placeCafe).2.2.2.1 _ hfind⟩

/-- C10 (implicit): the baseline footfall of every POI is one of
{70, 90, 110, 120, 140}, so the morning slot's people count is at most 77
and its band is always `"low"`; consequently the best-time slot chosen by
`buildCrowdProfileForPlace` is the morning slot for every POI. -/
theorem claim_C10 (businessByIntensity : String → List String) (place : Place) :
    (estimateBaseFootfall place = 70 ∨ estimateBaseFootfall place = 90 ∨
      estimateBaseFootfall place = 110 ∨ estimateBaseFootfall place = 120 ∨
      estimateBaseFootfall place = 140) ∧
    ((buildCrowdProfileForPlace businessByIntensity place).slots.headD emptySlot).id =
      "morning" ∧
    ((buildCrowdProfileForPlace businessByIntensity place).slots.headD emptySlot).people ≤ 77 ∧
    ((buildCrowdProfileForPlace businessByIntensity place).slots.headD emptySlot).crowd =
      "low" ∧
    bestSlot (buildCrowdProfileForPlace businessByIntensity place).slots =
      (buildCrowdProfileForPlace businessByIntensity place).slots.headD emptySlot := by
  have hcases := estimateBaseFootfall_cases place
  have hm : (buildCrowdProfileForPlace businessByIntensity place).slots.headD emptySlot =
      profileSlot businessByIntensity place
        { id := "morning", label := "Morning", timeRange := "6am - 10am", multiplier := 0.55 } := by
    rw [buildProfile_slots]
    rfl
  have key : jsRound (estimateBaseFootfall place * 0.55) ≤ 77 ∧
      classifyCrowd ((jsRound (estimateBaseFootfall place * 0.55) : ℤ) : ℚ) = "low" := by
    rcases hcases with h | h | h | h | h <;> rw [h]
    · have hv : jsRound ((70 : ℚ) * 0.55) = 39 := by norm_num [jsRound]
      rw [hv]
      exact ⟨by norm_num, by decide⟩
    · have hv : jsRound ((90 : ℚ) * 0.55) = 50 := by norm_num [jsRound]
      rw [hv]
      exact ⟨by norm_num, by decide⟩
    · have hv : jsRound ((110 : ℚ) * 0.55) = 61 := by norm_num [jsRound]
      rw [hv]
      exact ⟨by norm_num, by decide⟩
    · have hv : jsRound ((120 : ℚ) * 0.55) = 66 := by norm_num [jsRound]
      rw [hv]
      exact ⟨by norm_num, by decide⟩
    · have hv : jsRound ((140 : ℚ) * 0.55) = 77 := by norm_num [jsRound]
      rw [hv]
      exact ⟨by norm_num, by decide⟩
  have hcrowd : (profileSlot businessByIntensity place
      { id := "morning", label := "Morning", timeRange := "6am - 10am",
        multiplier := 0.55 }).crowd = "low" := key.2
  refine ⟨hcases, by rw [hm]; rfl, ?_, ?_, ?_⟩
  · rw [hm]
    exact key.1
  · rw [hm]
    exact hcrowd
  · rw [buildProfile_slots]
    unfold bestSlot
    rw [List.find?_cons_of_pos _ (by simp [hcrowd])]
    rfl

/-! ## Helper lemmas: cache -/

theorem cacheGet_cacheSet_same (st : CacheState) (k : CacheKey) (v : CacheEntry) :
    cacheGet (cacheSet st k v) k = some v := by
  induction st with
  | nil => simp [cacheSet, cacheGet]
  | cons hd tl ih =>
    by_cases h : hd.1 = k
    · simp only [cacheSet]
      rw [if_pos h]
      simp [cacheGet]
    · simp only [cacheSet]
      rw [if_neg h]
      simp only [cacheGet]
      rw [if_neg h]
      exact ih

theorem countKey_cons (x : CacheKey × CacheEntry) (tl : CacheState) (k : CacheKey) :
    countKey (x :: tl) k = (if x.1 = k then 1 else 0) + countKey tl k := by
  by_cases h : x.1 = k
  all_goals simp [countKey, List.filter_cons, h]
  all_goals omega

theorem countKey_cacheSet (st : CacheState) (k : CacheKey) (v : CacheEntry)
    (h : countKey st k ≤ 1) : countKey (cacheSet st k v) k = 1 := by
  induction st with
  | nil => simp [cacheSet, countKey, List.filter_cons]
  | cons hd tl ih =>
    rw [countKey_cons] at h
    by_cases h1 : hd.1 = k
    · rw [if_pos h1] at h
      simp only [cacheSet]
      rw [if_pos h1, countKey_cons, if_pos rfl]
      have htl : countKey tl k = 0 := by omega
      omega
    · rw [if_neg h1] at h
      simp only [cacheSet]
      rw [if_neg h1, countKey_cons, if_neg h1]
      simp only [Nat.zero_add] at h ⊢
      exact ih h

/-! ## Cache claims -/

/-- C5: calls whose arguments normalize to the same cache key — latitude and
longitude rounded to 4 decimals, business type lowercased and trimmed —
share one entry: a first (miss) call fetches and stores; a second call with
an equivalent key within `ttlMs` returns the cached result without
fetching and leaves the state unchanged; a call after `ttlMs` has elapsed
fetches again and overwrites the entry, keeping exactly one live entry for
the key; and `(12.97164, 77.59460, "Cafe ")` and
`(12.97161, 77.59462, "cafe")` normalize to the same key. -/
theorem claim_C5 (st0 : CacheState) (lat1 lon1 lat2 lon2 : ℚ) (bt1 bt2 : String)
    (t1 t2 t3 ttl : ℤ) (d1 d2 d3 : FeasData)
    (hkey : cacheKeyOf lat1 lon1 bt1 = cacheKeyOf lat2 lon2 bt2)
    (hmiss : cacheGet st0 (cacheKeyOf lat1 lon1 bt1) = none)
    (hcount : countKey st0 (cacheKeyOf lat1 lon1 bt1) ≤ 1)
    (hfresh : t2 - t1 < ttl)
    (hstale : ttl ≤ t3 - t1) :
    getFeasibilityWithCache st0 t1 lat1 lon1 bt1 (Except.ok d1) ttl =
      (Except.ok d1,
       cacheSet st0 (cacheKeyOf lat1 lon1 bt1) { data := d1, ts := t1 }, true) ∧
    getFeasibilityWithCache
        (cacheSet st0 (cacheKeyOf lat1 lon1 bt1) { data := d1, ts := t1 })
        t2 lat2 lon2 bt2 (Except.ok d2) ttl =
      (Except.ok d1,
       cacheSet st0 (cacheKeyOf lat1 lon1 bt1) { data := d1, ts := t1 }, false) ∧
    getFeasibilityWithCache
        (cacheSet st0 (cacheKeyOf lat1 lon1 bt1) { data := d1, ts := t1 })
        t3 lat2 lon2 bt2 (Except.ok d3) ttl =
      (Except.ok d3,
       cacheSet (cacheSet st0 (cacheKeyOf lat1 lon1 bt1) { data := d1, ts := t1 })
         (cacheKeyOf lat1 lon1 bt1) { data := d3, ts := t3 }, true) ∧
    cacheGet (cacheSet (cacheSet st0 (cacheKeyOf lat1 lon1 bt1) { data := d1, ts := t1 })
        (cacheKeyOf lat1 lon1 bt1) { data := d3, ts := t3 })
      (cacheKeyOf lat1 lon1 bt1) = some { data := d3, ts := t3 } ∧
    countKey (cacheSet (cacheSet st0 (cacheKeyOf lat1 lon1 bt1) { data := d1, ts := t1 })
        (cacheKeyOf lat1 lon1 bt1) { data := d3, ts := t3 })
      (cacheKeyOf lat1 lon1 bt1) = 1 ∧
    cacheKeyOf 12.97164 77.59460 "Cafe " = cacheKeyOf 12.97161 77.59462 "cafe" := by
  refine ⟨?_, ?_, ?_, ?_, ?_, ?_⟩
  · simp only [getFeasibilityWithCache]
    rw [hmiss]
  · simp only [getFeasibilityWithCache]
    rw [← hkey, cacheGet_cacheSet_same]
    dsimp only
    rw [if_pos hfresh]
  · simp only [getFeasibilityWithCache]
    rw [← hkey, cacheGet_cacheSet_same]
    dsimp only
    rw [if_neg (not_lt.mpr hstale)]
  · exact cacheGet_cacheSet_same _ _ _
  · exact countKey_cacheSet _ _ _ (le_of_eq (countKey_cacheSet _ _ _ hcount))
  · simp only [cacheKeyOf, Prod.mk.injEq]
    refine ⟨?_, ?_, ?_⟩
    · norm_num [round4, jsRound]
    · norm_num [round4, jsRound]
    · decide

/-- Witness for C5: the spec's two normalizing argument tuples against an
empty cache, with `ttlMs = 120000`, fetch at time 0, re-read at 60000, and
stale re-fetch at 120000. -/
theorem claim_C5_witness :
    (cacheKeyOf 12.97164 77.59460 "Cafe " = cacheKeyOf 12.97161 77.59462 "cafe") ∧
    getFeasibilityWithCache
        (cacheSet [] (cacheKeyOf 12.97164 77.59460 "Cafe ")
          { data := { feasible := true }, ts := 0 })
        60000 12.97161 77.59462 "cafe" (Except.ok { feasible := false }) 120000 =
      (Except.ok { feasible := true },
       cacheSet [] (cacheKeyOf 12.97164 77.59460 "Cafe ")
         { data := { feasible := true }, ts := 0 }, false) := by
  have hkey : cacheKeyOf 12.97164 77.59460 "Cafe " = cacheKeyOf 12.97161 77.59462 "cafe" := by
    simp only [cacheKeyOf, Prod.mk.injEq]
    refine ⟨?_, ?_, ?_⟩
    · norm_num [round4, jsRound]
    · norm_num [round4, jsRound]
    · decide
  exact ⟨hkey,
    (claim_C5 [] 12.97164 77.59460 12.97161 77.59462 "Cafe " "cafe" 0 60000 120000 120000
      { feasible := true } { feasible := false } { feasible := false }
      hkey rfl (by simp [countKey]) (by decide) (by decide)).2.1⟩

/-- Fixture: a parsed feasibility body reporting a request-level failure. -/
def feasFailure : FeasData := { success := false, feasible := false, message := "Server error" }

/-- C6 counterexample: a parsed response with `success = false` IS stored in
the cache by the first call, and a second call with the same key within the
TTL returns that stored failure without invoking the fetcher. -/
theorem claim_C6_counterexample :
    feasFailure.success = false ∧
    getFeasibilityWithCache [] 0 12 77 "cafe" (Except.ok feasFailure) 120000 =
      (Except.ok feasFailure,
       [(cacheKeyOf 12 77 "cafe", { data := feasFailure, ts := 0 })], true) ∧
    getFeasibilityWithCache [(cacheKeyOf 12 77 "cafe", { data := feasFailure, ts := 0 })]
        60000 12 77 "cafe" (Except.ok { success := true }) 120000 =
      (Except.ok feasFailure,
       [(cacheKeyOf 12 77 "cafe", { data := feasFailure, ts := 0 })], false) := by
  refine ⟨rfl, rfl, ?_⟩
  simp only [getFeasibilityWithCache, cacheGet]
  rw [if_pos trivial]
  dsimp only
  rw [if_pos (by decide : (60000 : ℤ) - 0 < 120000)]

/-- C6 amended: transport failures (the fetch or JSON parse throwing)
propagate to the caller, leave the cache unchanged — on a miss and on a
stale entry alike — and a subsequent call with the same key invokes the
fetcher again; but a parsed response with `success = false` is a normal
result to the cache: it is stored and served like any other. -/
theorem claim_C6_amended (st : CacheState) (now now2 : ℤ) (lat lon : ℚ) (bt : String)
    (ttl : ℤ) (msg : String) (dat : FeasData) (e : CacheEntry) :
    (cacheGet st (cacheKeyOf lat lon bt) = none →
      getFeasibilityWithCache st now lat lon bt (Except.error msg) ttl =
        (Except.error msg, st, true)) ∧
    (cacheGet st (cacheKeyOf lat lon bt) = some e → ttl ≤ now - e.ts →
      getFeasibilityWithCache st now lat lon bt (Except.error msg) ttl =
        (Except.error msg, st, true)) ∧
    (cacheGet st (cacheKeyOf lat lon bt) = none →
      (getFeasibilityWithCache st now2 lat lon bt (Except.ok dat) ttl).2.2 = true) ∧
    (dat.success = false → cacheGet st (cacheKeyOf lat lon bt) = none →
      getFeasibilityWithCache st now lat lon bt (Except.ok dat) ttl =
        (Except.ok dat,
         cacheSet st (cacheKeyOf lat lon bt) { data := dat, ts := now }, true)) := by
  refine ⟨?_, ?_, ?_, ?_⟩
  · intro hmiss
    simp only [getFeasibilityWithCache]
    rw [hmiss]
  · intro hhit hstale
    simp only [getFeasibilityWithCache]
    rw [hhit]
    dsimp only
    rw [if_neg (not_lt.mpr hstale)]
  · intro hmiss
    simp only [getFeasibilityWithCache]
    rw [hmiss]
  · intro _ hmiss
    simp only [getFeasibilityWithCache]
    rw [hmiss]

/-- Witness for C6 amended: a throwing fetch against the empty cache
propagates, leaves the cache empty, and the retry fetches. -/
theorem claim_C6_witness :
    (cacheGet [] (cacheKeyOf 12 77 "cafe") = none) ∧
    getFeasibilityWithCache [] 0 12 77 "cafe" (Except.error "network down") 120000 =
      (Except.error "network down", [], true) ∧
    (getFeasibilityWithCache [] 1 12 77 "cafe" (Except.ok feasFailure) 120000).2.2 = true :=
  ⟨rfl,
   (claim_C6_amended [] 0 1 12 77 "cafe" 120000 "network down" feasFailure
     { data := feasFailure, ts := 0 }).1 rfl,
   (claim_C6_amended [] 0 1 12 77 "cafe" 120000 "network down" feasFailure
     { data := feasFailure, ts := 0 }).2.2.1 rfl⟩

/-- `Math.atan2(y, x)`: the argument of the complex number `x + y i`. -/
noncomputable def atan2 (y x : ℝ) : ℝ := Complex.arg ⟨x, y⟩

/-- Source `haversineMeters` (lines 3561-3570): great-circle distance by the
haversine formula with Earth radius 6,371,000 m.  Its trigonometric body is
not decidable in exact arithmetic, so the ranking theorems take the distance
function as an abstract parameter; this transcription records what the
source instantiates it with. -/
noncomputable def haversineMeters (lat1 lon1 lat2 lon2 : ℝ) : ℝ :=
  let R : ℝ := 6371000
  let toRad : ℝ → ℝ := fun deg => deg * Real.pi / 180
  let dLat := toRad (lat2 - lat1)
  let dLon := toRad (lon2 - lon1)
  let a := Real.sin (dLat / 2) * Real.sin (dLat / 2) +
    Real.cos (toRad lat1) * Real.cos (toRad lat2) *
    (Real.sin (dLon / 2) * Real.sin (dLon / 2))
  2 * R * atan2 (Real.sqrt a) (Real.sqrt (1 - a))

theorem haversineMeters_self (lat lon : ℝ) : haversineMeters lat lon lat lon = 0 := by
  unfold haversineMeters atan2
  have h1 : ((⟨Real.sqrt (1 - 0), Real.sqrt 0⟩ : ℂ)) = 1 := by
    apply Complex.ext
    · simp
    · simp
  simp only [sub_self, zero_mul, mul_zero, zero_div, Real.sin_zero, add_zero, zero_add]
  rw [h1, Complex.arg_one, mul_zero]

/-- Fixture: a trivially computable distance function, used where a concrete
instantiation of the abstract distance parameter is needed. -/
def distZero : DistFn := fun _ _ _ _ => 0

/-- C4: whenever the anchor is a valid coordinate the ranker never returns an
empty result; with zero POIs and zero zones it returns exactly one candidate
located at the anchor with sourceKind `"fallback"` and the no-ranked-match
label. -/
theorem claim_C4 (d : DistFn) (businessType crowdIntensity : String) (places : List Place)
    (businessByIntensity : String → List String) (zoneData : String → List Zone)
    (c : Coord) :
    rank d businessType crowdIntensity places (some c) businessByIntensity zoneData ≠ [] ∧
    rank d businessType crowdIntensity [] (some c) businessByIntensity (fun _ => []) =
      [fallbackCandidate c] ∧
    (fallbackCandidate c).kind = "fallback" ∧ (fallbackCandidate c).lat = c.1 ∧
    (fallbackCandidate c).lon = c.2 ∧ (fallbackCandidate c).label = noRankedLabel := by
  refine ⟨?_, ?_, rfl, rfl, rfl, rfl⟩
  · simp only [rank]
    split
    · assumption
    · split
      · assumption
      · split
        · split
          · assumption
          · simp
        · split
          · assumption
          · simp
  · rfl

/-- C3 counterexample: with one matching cafe whose band (`"medium"`)
differs from the requested `"high"`, no zones, and a valid anchor, tiers 1
and 2 are empty, yet the ranker returns the anchor fallback rather than the
five nearest business-type matches with the intensity filter relaxed. -/
theorem claim_C3_counterexample :
    typeMatches (jsBizKey "cafe") placeCafe = true ∧
    classifyCrowd (estimateBaseFootfall placeCafe) = "medium" ∧
    tier1 distZero (some (12, 77)) (jsBizKey "cafe")
      (intensityNormOf "high" bbiNone (jsBizKey "cafe"))
      (mlCategorySetOf bbiNone (intensityNormOf "high" bbiNone (jsBizKey "cafe")))
      [placeCafe] = [] ∧
    tier2 distZero (some (12, 77))
      (matchingPlaces (jsBizKey "cafe") (intensityNormOf "high" bbiNone (jsBizKey "cafe"))
        (mlCategorySetOf bbiNone (intensityNormOf "high" bbiNone (jsBizKey "cafe")))
        [placeCafe]) [] = [] ∧
    rank distZero "cafe" "high" [placeCafe] (some (12, 77)) bbiNone (fun _ => []) =
      [fallbackCandidate (12, 77)] ∧
    (fallbackCandidate (12, 77)).kind = "fallback" := by
  refine ⟨by decide, by decide, by decide, by decide, by decide, rfl⟩

/-- C3 amended: the best-matching-POI branch is dead code.  Tier 1 is empty
exactly when the tier-1 match list is empty, so the branch's guard (tiers 1
and 2 empty AND a non-empty match list) is unsatisfiable; whenever tiers 1
and 2 both produce zero candidates the ranker proceeds directly to the
anchor fallback (or returns nothing when the anchor is invalid), and the
intensity filter is never relaxed. -/
theorem claim_C3_amended (d : DistFn) (businessType crowdIntensity : String)
    (places : List Place) (anchor : Option Coord)
    (businessByIntensity : String → List String) (zoneData : String → List Zone) :
    (tier1 d anchor (jsBizKey businessType)
        (intensityNormOf crowdIntensity businessByIntensity (jsBizKey businessType))
        (mlCategorySetOf businessByIntensity
          (intensityNormOf crowdIntensity businessByIntensity (jsBizKey businessType)))
        places = [] ↔
      matchingPlaces (jsBizKey businessType)
        (intensityNormOf crowdIntensity businessByIntensity (jsBizKey businessType))
        (mlCategorySetOf businessByIntensity
          (intensityNormOf crowdIntensity businessByIntensity (jsBizKey businessType)))
        places = []) ∧
    (tier1 d anchor (jsBizKey businessType)
        (intensityNormOf crowdIntensity businessByIntensity (jsBizKey businessType))
        (mlCategorySetOf businessByIntensity
          (intensityNormOf crowdIntensity businessByIntensity (jsBizKey businessType)))
        places = [] →
      tier2 d anchor
        (matchingPlaces (jsBizKey businessType)
          (intensityNormOf crowdIntensity businessByIntensity (jsBizKey businessType))
          (mlCategorySetOf businessByIntensity
            (intensityNormOf crowdIntensity businessByIntensity (jsBizKey businessType)))
          places)
        (zoneData (intensityNormOf crowdIntensity businessByIntensity
          (jsBizKey businessType))) = [] →
      rank d businessType crowdIntensity places anchor businessByIntensity zoneData =
        (match anchor with
         | some c => [fallbackCandidate c]
         | none => [])) ∧
    ¬ (tier1 d anchor (jsBizKey businessType)
        (intensityNormOf crowdIntensity businessByIntensity (jsBizKey businessType))
        (mlCategorySetOf businessByIntensity
          (intensityNormOf crowdIntensity businessByIntensity (jsBizKey businessType)))
        places = [] ∧
      matchingPlaces (jsBizKey businessType)
        (intensityNormOf crowdIntensity businessByIntensity (jsBizKey businessType))
        (mlCategorySetOf businessByIntensity
          (intensityNormOf crowdIntensity businessByIntensity (jsBizKey businessType)))
        places ≠ []) := by
  refine ⟨tier1_eq_nil_iff _ _ _ _ _ _, ?_, ?_⟩
  · intro h1 h2
    have hm := (tier1_eq_nil_iff d anchor _ _ _ _).mp h1
    simp only [rank]
    rw [h1, h2, hm]
    simp
  · rintro ⟨h1, h2⟩
    exact h2 ((tier1_eq_nil_iff d anchor _ _ _ _).mp h1)

/-- Witness for C3 amended at the cafe-with-wrong-band scenario. -/
theorem claim_C3_witness :
    (tier1 distZero (some (12, 77)) (jsBizKey "cafe")
      (intensityNormOf "high" bbiNone (jsBizKey "cafe"))
      (mlCategorySetOf bbiNone (intensityNormOf "high" bbiNone (jsBizKey "cafe")))
      [placeCafe] = []) ∧
    rank distZero "cafe" "high" [placeCafe] (some (12, 77)) bbiNone (fun _ => []) =
      (match some ((12 : ℚ), (77 : ℚ)) with
       | some c => [fallbackCandidate c]
       | none => []) :=
  ⟨by decide,
   (claim_C3_amended distZero "cafe" "high" [placeCafe] (some (12, 77)) bbiNone
     (fun _ => [])).2.1 (by decide) (by decide)⟩

/-- C2: when tier 1 produced zero candidates, every zone of the requested
band is scored with `score = 1000 × (tier-1-matching POIs within 900 m) +
zone.count − 0.001 × distance(anchor, zone)` (the matching count being zero
here, the score reduces to `count − 0.001 × distance`); the zones are
ordered by score descending with ties kept in input order (stable sort) and
exactly the top `min 5 n` are emitted as `"zone"` candidates, which the
ranker then returns. -/
theorem claim_C2 (d : DistFn) (anchor : Option Coord) (bizKey intensityNorm : String)
    (mlSet : List String) (places : List Place) (zones : List Zone)
    (h1 : tier1 d anchor bizKey intensityNorm mlSet places = []) :
    ((zoneCandidates d anchor (matchingPlaces bizKey intensityNorm mlSet places) zones).map
      (fun zc => zc.zone) = zones) ∧
    (∀ i, (hi : i < zones.length) →
      (hi2 : i < (zoneCandidates d anchor
        (matchingPlaces bizKey intensityNorm mlSet places) zones).length) →
      ((zoneCandidates d anchor (matchingPlaces bizKey intensityNorm mlSet places)
          zones)[i]).score =
        (((matchingPlaces bizKey intensityNorm mlSet places).filter
            (fun mp => d (zones[i]).latitude (zones[i]).longitude mp.lat mp.lon ≤ 900)).length
          : ℚ) * 1000 +
        (zones[i]).count -
        anchorDist d anchor (zones[i]).latitude (zones[i]).longitude * 0.001) ∧
    (∀ i, (hi : i < zones.length) →
      (hi2 : i < (zoneCandidates d anchor
        (matchingPlaces bizKey intensityNorm mlSet places) zones).length) →
      ((zoneCandidates d anchor (matchingPlaces bizKey intensityNorm mlSet places)
          zones)[i]).score =
        (zones[i]).count -
        anchorDist d anchor (zones[i]).latitude (zones[i]).longitude * 0.001) ∧
    (sortStableBy zoneSortKey
        (zoneCandidates d anchor (matchingPlaces bizKey intensityNorm mlSet places)
          zones)).Pairwise (fun a b => b.score ≤ a.score) ∧
    (sortPairsBy zoneSortKey
        (zoneCandidates d anchor (matchingPlaces bizKey intensityNorm mlSet places)
          zones)).Pairwise (PairLe zoneSortKey) ∧
    (sortPairsBy zoneSortKey
        (zoneCandidates d anchor (matchingPlaces bizKey intensityNorm mlSet places)
          zones)).Perm
      (zoneCandidates d anchor (matchingPlaces bizKey intensityNorm mlSet places)
        zones).enum ∧
    (∀ a ∈ (sortStableBy zoneSortKey
        (zoneCandidates d anchor (matchingPlaces bizKey intensityNorm mlSet places)
          zones)).take 5,
      ∀ b ∈ (sortStableBy zoneSortKey
        (zoneCandidates d anchor (matchingPlaces bizKey intensityNorm mlSet places)
          zones)).drop 5, b.score ≤ a.score) ∧
    (tier2 d anchor (matchingPlaces bizKey intensityNorm mlSet places) zones).length =
      min 5 zones.length ∧
    (∀ cand ∈ tier2 d anchor (matchingPlaces bizKey intensityNorm mlSet places) zones,
      cand.kind = "zone" ∧
      ∃ zc ∈ zoneCandidates d anchor (matchingPlaces bizKey intensityNorm mlSet places)
          zones, cand = zcCandidate zc) ∧
    (∀ businessType crowdIntensity businessByIntensity zoneData,
      jsBizKey businessType = bizKey →
      intensityNormOf crowdIntensity businessByIntensity bizKey = intensityNorm →
      mlCategorySetOf businessByIntensity intensityNorm = mlSet →
      zoneData intensityNorm = zones →
      tier2 d anchor (matchingPlaces bizKey intensityNorm mlSet places) zones ≠ [] →
      rank d businessType crowdIntensity places anchor businessByIntensity zoneData =
        tier2 d anchor (matchingPlaces bizKey intensityNorm mlSet places) zones) := by
  have hm : matchingPlaces bizKey intensityNorm mlSet places = [] :=
    (tier1_eq_nil_iff d anchor _ _ _ _).mp h1
  have hformula : ∀ i, (hi : i < zones.length) →
      (hi2 : i < (zoneCandidates d anchor
        (matchingPlaces bizKey intensityNorm mlSet places) zones).length) →
      ((zoneCandidates d anchor (matchingPlaces bizKey intensityNorm mlSet places)
          zones)[i]).score =
        (((matchingPlaces bizKey intensityNorm mlSet places).filter
            (fun mp => d (zones[i]).latitude (zones[i]).longitude mp.lat mp.lon ≤ 900)).length
          : ℚ) * 1000 +
        (zones[i]).count -
        anchorDist d anchor (zones[i]).latitude (zones[i]).longitude * 0.001 := by
    intro i hi hi2
    simp only [zoneCandidates, List.getElem_map]
  refine ⟨zoneCandidates_map_zone d anchor _ zones, hformula, ?_, ?_, ?_, ?_, ?_,
    tier2_length d anchor _ zones, ?_, ?_⟩
  · intro i hi hi2
    rw [hformula i hi hi2, hm]
    simp [List.filter]
  · exact (sortStableBy_pairwise zoneSortKey _).imp (fun h => neg_le_neg_iff.mp h)
  · exact sortPairsBy_pairwise zoneSortKey _
  · exact sortPairsBy_perm zoneSortKey _
  · intro a ha b hb
    exact neg_le_neg_iff.mp
      (pairwise_take_drop (sortStableBy_pairwise zoneSortKey _) 5 a ha b hb)
  · intro cand hc
    unfold tier2 at hc
    rcases List.mem_map.mp hc with ⟨zc, hzc, rfl⟩
    exact ⟨rfl, zc, (sortStableBy_mem zoneSortKey _).mp (List.mem_of_mem_take hzc), rfl⟩
  · intro businessType crowdIntensity businessByIntensity zoneData hbk hin hml hz h2ne
    subst hbk
    subst hin
    subst hml
    subst hz
    simp only [rank]
    rw [h1]
    rw [if_neg (fun hcon => hcon rfl)]
    rw [if_pos h2ne]

/-- Fixture: two zones of the requested band with counts 7 and 3. -/
def zonesTwo : List Zone :=
  [ { latitude := 13, longitude := 78, count := 7 },
    { latitude := 14, longitude := 79, count := 3 } ]

/-- Witness for C2: no POIs (so tier 1 is empty) and two concrete zones. -/
theorem claim_C2_witness :
    (tier1 distZero (some (12, 77)) "cafe" "high" [] [] = []) ∧
    ((zoneCandidates distZero (some (12, 77)) (matchingPlaces "cafe" "high" [] []) zonesTwo).map
      (fun zc => zc.zone) = zonesTwo) :=
  ⟨by decide,
   (claim_C2 distZero (some (12, 77)) "cafe" "high" [] [] zonesTwo (by decide)).1⟩

/-- Fixture: a cafe at the prime meridian — a valid coordinate whose
longitude 0 is falsy to the JS coordinate check. -/
def placeGreenwich : Place := { tags := { amenity := "cafe" }, lat := some 51, lon := some 0 }

/-- C1 counterexample: the prime-meridian cafe satisfies the claim's three
qualification conditions — category match, (empty) allow-list, band equal to
the target — yet tier 1 drops it (its longitude 0 fails the JS truthiness
coordinate check), so "qualifies exactly when (1) ∧ (2) ∧ (3)" is false. -/
theorem claim_C1_counterexample :
    typeMatches "cafe" placeGreenwich = true ∧
    mlMatches [] placeGreenwich = true ∧
    classifyCrowd (estimateBaseFootfall placeGreenwich) = "medium" ∧
    placeGreenwich.lat = some 51 ∧ placeGreenwich.lon = some 0 ∧
    coordsFor placeGreenwich = none ∧
    matchingPlaces "cafe" "medium" [] [placeGreenwich] = [] ∧
    tier1 distZero (some (12, 77)) "cafe" "medium" [] [placeGreenwich] = [] := by
  refine ⟨by decide, by decide, by decide, rfl, rfl, by decide, by decide, by decide⟩

/-- C1 amended: for every distance function, anchor, business-type token,
non-empty target intensity, POI list and allow-list, a POI has a tier-1
match entry exactly when (1) its category matches the token, (2) the
allow-list (if non-empty) also matches, (3) its band equals the target, and
(4) its coordinates are usable (present and nonzero, with the `center`
alias consulted when the direct latitude is falsy); an empty allow-list
imposes no restriction; the qualifying POIs are emitted sorted by distance
to the anchor ascending, stably (ties keep input order), truncated to the
nearest 10, as `"poi"` candidates, which the ranker returns; in particular
a qualifying POI strictly nearer the anchor (for example at 200 m) is
ranked before a strictly farther one (at 900 m). -/
theorem claim_C1_amended (d : DistFn) (anchor : Option Coord)
    (bizKey intensityNorm : String) (mlSet : List String) (places : List Place)
    (htarget : intensityNorm ≠ "") :
    (∀ p : Place,
      (∃ mp ∈ matchingPlaces bizKey intensityNorm mlSet places, mp.place = p) ↔
        (p ∈ places ∧ typeMatches bizKey p = true ∧ mlMatches mlSet p = true ∧
         (coordsFor p).isSome = true ∧
         classifyCrowd (estimateBaseFootfall p) = intensityNorm)) ∧
    (∀ p : Place, mlMatches [] p = true) ∧
    (tier1 d anchor bizKey intensityNorm mlSet places).Pairwise
      (fun c c' => anchorDist d anchor c.lat c.lon ≤ anchorDist d anchor c'.lat c'.lon) ∧
    (sortPairsBy (tier1Key d anchor)
        (matchingPlaces bizKey intensityNorm mlSet places)).Pairwise
      (PairLe (tier1Key d anchor)) ∧
    (sortPairsBy (tier1Key d anchor)
        (matchingPlaces bizKey intensityNorm mlSet places)).Perm
      (matchingPlaces bizKey intensityNorm mlSet places).enum ∧
    (tier1 d anchor bizKey intensityNorm mlSet places).length =
      min 10 (matchingPlaces bizKey intensityNorm mlSet places).length ∧
    (∀ a ∈ (sortStableBy (tier1Key d anchor)
        (matchingPlaces bizKey intensityNorm mlSet places)).take 10,
      ∀ b ∈ (sortStableBy (tier1Key d anchor)
        (matchingPlaces bizKey intensityNorm mlSet places)).drop 10,
      tier1Key d anchor a ≤ tier1Key d anchor b) ∧
    (∀ cand ∈ tier1 d anchor bizKey intensityNorm mlSet places,
      cand.kind = "poi" ∧
      ∃ mp ∈ matchingPlaces bizKey intensityNorm mlSet places, cand = mpCandidate mp) ∧
    (∀ i j, (hi : i < (tier1 d anchor bizKey intensityNorm mlSet places).length) →
      (hj : j < (tier1 d anchor bizKey intensityNorm mlSet places).length) →
      anchorDist d anchor ((tier1 d anchor bizKey intensityNorm mlSet places)[i]).lat
          ((tier1 d anchor bizKey intensityNorm mlSet places)[i]).lon <
        anchorDist d anchor ((tier1 d anchor bizKey intensityNorm mlSet places)[j]).lat
          ((tier1 d anchor bizKey intensityNorm mlSet places)[j]).lon →
      i < j) ∧
    (∀ businessType crowdIntensity businessByIntensity zoneData,
      jsBizKey businessType = bizKey →
      intensityNormOf crowdIntensity businessByIntensity bizKey = intensityNorm →
      mlCategorySetOf businessByIntensity intensityNorm = mlSet →
      tier1 d anchor bizKey intensityNorm mlSet places ≠ [] →
      rank d businessType crowdIntensity places anchor businessByIntensity zoneData =
        tier1 d anchor bizKey intensityNorm mlSet places) := by
  have hsorted : (tier1 d anchor bizKey intensityNorm mlSet places).Pairwise
      (fun c c' => anchorDist d anchor c.lat c.lon ≤ anchorDist d anchor c'.lat c'.lon) := by
    unfold tier1
    refine List.pairwise_map.mpr ?_
    exact ((sortStableBy_pairwise (tier1Key d anchor) _).sublist (List.take_sublist _ _)).imp
      (fun h => h)
  refine ⟨?_, ?_, hsorted, sortPairsBy_pairwise _ _, sortPairsBy_perm _ _,
    tier1_length d anchor _ _ _ _, ?_, ?_, ?_, ?_⟩
  · intro p
    refine Iff.trans (exists_mem_matchingPlaces_iff bizKey intensityNorm mlSet places p) ?_
    refine and_congr_right fun _ => and_congr_right fun _ => and_congr_right fun _ =>
      and_congr_right fun _ => ?_
    exact or_iff_right htarget
  · intro p
    unfold mlMatches
    rfl
  · intro a ha b hb
    exact pairwise_take_drop (sortStableBy_pairwise (tier1Key d anchor) _) 10 a ha b hb
  · intro cand hc
    unfold tier1 at hc
    rcases List.mem_map.mp hc with ⟨mp, hmp, rfl⟩
    exact ⟨rfl, mp, (sortStableBy_mem (tier1Key d anchor) _).mp
      (List.mem_of_mem_take hmp), rfl⟩
  · intro i j hi hj hlt
    by_contra hcon
    rcases lt_or_eq_of_le (Nat.not_lt.mp hcon) with h | h
    · exact absurd hlt (not_lt.mpr
        (List.pairwise_iff_getElem.mp hsorted j i hj hi h))
    · subst h
      exact absurd hlt (lt_irrefl _)
  · intro businessType crowdIntensity businessByIntensity zoneData hbk hin hml h1ne
    subst hbk
    subst hin
    subst hml
    simp only [rank]
    rw [if_pos h1ne]

/-- Fixture: a distance function that answers 200 for latitude 13 and 900
otherwise, standing in for haversine distances of 200 m and 900 m. -/
def distByLat : DistFn := fun _ _ lat _ => if lat = 13 then 200 else 900

/-- Fixture: a second cafe, farther from the anchor under `distByLat`. -/
def placeCafeFar : Place :=
  { tags := { amenity := "cafe", name := "far cafe" }, lat := some 14, lon := some 78 }

/-- Concrete check of the tier-1 ordering: two qualifying cafes at 200 m and
900 m, listed far-first in the input, come out nearest-first. -/
theorem tier1_orders_nearer_first :
    tier1 distByLat (some (12, 77)) "cafe" "medium" [] [placeCafeFar, placeCafe] =
      [ { lat := 13, lon := 78, kind := "poi", label := "cafe" },
        { lat := 14, lon := 78, kind := "poi", label := "far cafe" } ] := by
  decide

/-- Witness for C1 amended at a single cafe POI with target `"medium"`. -/
theorem claim_C1_witness :
    (("medium" : String) ≠ "") ∧
    (tier1 distZero (some (12, 77)) "cafe" "medium" [] [placeCafe]).length =
      min 10 (matchingPlaces "cafe" "medium" [] [placeCafe]).length :=
  ⟨by decide,
   (claim_C1_amended distZero (some (12, 77)) "cafe" "medium" [] [placeCafe]
     (by decide)).2.2.2.2.2.1⟩

end Heatmap
